import Mathlib

/-!
Verification of the WithSpinner decorator (src/src/app/spinner/decorator.ts)
and the SpinnerComponent handler (src/src/app/spinner/spinnercomponent.ts).

The decorator replaces a method with an async function that
  1. checks `!handler.spinnerOn || !handler.spinnerOff || !handler.handleError`
     and throws a contract-violation Error when the check fails,
  2. runs `try { handler.spinnerOn(); return await originalMethod.apply(this, args); }
     catch (error) { handler.handleError(error); } finally { handler.spinnerOff(); }`.

The embedding models JavaScript values (with truthiness), the three possible
behaviours of the original method (resolve, reject, synchronous throw), the
ECMAScript completion semantics of try/catch/finally, and the async-function
rule that every throw inside the body becomes a rejection of the returned
promise.  Handler callbacks are recorded as an event trace so that call order
and call counts are provable.
-/

/-- A JavaScript value, as far as the decorator can observe one: primitives
plus Error objects (an Error carries its constructor name and message).
Functions are not values here; whether a handler property is a function is
recorded in its slot. -/
inductive JSVal where
  | undef
  | vnull
  | vbool (b : Bool)
  | vnum (n : Int)
  | vstr (s : String)
  | error (name msg : String)
deriving DecidableEq, Repr

/-- JavaScript truthiness of a value: undefined, null, false, 0 and the
empty string are falsy; every other value (including every Error object)
is truthy. -/
def JSVal.truthy : JSVal → Bool
  | .undef => false
  | .vnull => false
  | .vbool b => b
  | .vnum n => n != 0
  | .vstr s => s != ""
  | .error _ _ => true

/-- The Error thrown by the contract check in the decorator. -/
def contractError : JSVal :=
  .error "Error" "Component must implement SpinnerHandler interface to use @WithSpinner decorator"

/-- The TypeError JavaScript raises when a non-function value is called. -/
def typeError : JSVal := .error "TypeError" "is not a function"

/-- An observable event during one invocation of the wrapped method: a call of
handler.spinnerOn, a call of handler.spinnerOff, a call of handler.handleError
with its argument, or the invocation of the original method. -/
inductive Ev where
  | on
  | off
  | handleError (e : JSVal)
  | opCall
deriving DecidableEq, Repr

/-- What a call of handler.handleError does: return a value normally, or
throw an error. -/
inductive HERes where
  | ret (v : JSVal)
  | thr (e : JSVal)
deriving DecidableEq, Repr

/-- The handler property looked up for spinnerOn or spinnerOff: either a
plain (non-function) value, or a function.  A missing property reads as
`val JSVal.undef`.  A function slot records the call as an event and returns
undefined, matching the `spinnerOn(): void` / `spinnerOff(): void` contract. -/
inductive OnSlot where
  | val (v : JSVal)
  | func
deriving DecidableEq, Repr

/-- The handler property looked up for handleError: a plain value, or a
function whose behaviour on each error argument is given by `impl`. -/
inductive HESlot where
  | val (v : JSVal)
  | func (impl : JSVal → HERes)

/-- Truthiness of a spinnerOn/spinnerOff property: functions are truthy. -/
def OnSlot.truthy : OnSlot → Bool
  | .val v => v.truthy
  | .func => true

/-- Truthiness of a handleError property: functions are truthy. -/
def HESlot.truthy : HESlot → Bool
  | .val v => v.truthy
  | .func _ => true

/-- The object bound to `this` inside the replaced method, as far as the
decorator reads it: its spinnerOn, spinnerOff and handleError properties. -/
structure Handler where
  spinnerOn : OnSlot
  spinnerOff : OnSlot
  handleError : HESlot

/-- The behaviour of `originalMethod.apply(this, args)` in one invocation:
return a promise that resolves with a value, return a promise that rejects
with an error, or throw synchronously before returning any promise. -/
inductive Op where
  | retResolve (v : JSVal)
  | retReject (e : JSVal)
  | throwSync (e : JSVal)
deriving DecidableEq, Repr

/-- Completion of a statement or block, after ECMAScript: a `return v`
completion, a normal completion, or a thrown error. -/
inductive Comp where
  | ret (v : JSVal)
  | normal
  | thr (e : JSVal)
deriving DecidableEq, Repr

/-- A settled promise: resolved with a value or rejected with an error. -/
inductive Outcome where
  | resolved (v : JSVal)
  | rejected (e : JSVal)
deriving DecidableEq, Repr

/-- What invoking a JavaScript function can look like from the caller: a
synchronous throw before any promise exists, or a returned promise together
with how it settles. -/
inductive CallResult where
  | syncThrow (e : JSVal)
  | promise (o : Outcome)
deriving DecidableEq, Repr

/-- Evaluate the call `handler.spinnerOn()` or `handler.spinnerOff()` on the
slot: a function slot records the given event and returns undefined; calling
a non-function value throws a TypeError and records nothing. -/
def callOn (s : OnSlot) (ev : Ev) : List Ev × Except JSVal JSVal :=
  match s with
  | .val _ => ([], .error typeError)
  | .func => ([ev], .ok .undef)

/-- Evaluate the call `handler.handleError(e)` on the slot: a function slot
records the call (with its argument) and then returns or throws as its
implementation says; calling a non-function value throws a TypeError. -/
def callHE (s : HESlot) (e : JSVal) : List Ev × Except JSVal JSVal :=
  match s with
  | .val _ => ([], .error typeError)
  | .func impl =>
    match impl e with
    | .ret v => ([.handleError e], .ok v)
    | .thr e2 => ([.handleError e], .error e2)

/-- Evaluate `await originalMethod.apply(this, args)`: the invocation is
recorded as an event; a resolving promise yields its value, while a rejecting
promise or a synchronous throw surfaces as a thrown error at the await. -/
def opRun : Op → List Ev × Except JSVal JSVal
  | .retResolve v => ([.opCall], .ok v)
  | .retReject e => ([.opCall], .error e)
  | .throwSync e => ([.opCall], .error e)

/-- The try block `{ handler.spinnerOn(); return await originalMethod.apply(this, args); }`:
if the spinnerOn call throws, that error is the completion; otherwise the
original method runs and the block completes with `return v` or a throw. -/
def tryClause (h : Handler) (op : Op) : List Ev × Comp :=
  match callOn h.spinnerOn .on with
  | (t, .error e) => (t, .thr e)
  | (t, .ok _) =>
    match opRun op with
    | (t2, .ok v) => (t ++ t2, .ret v)
    | (t2, .error e) => (t ++ t2, .thr e)

/-- The catch block `{ handler.handleError(error); }`: the call result is
discarded, so a normal return of handleError gives a normal completion (the
block has no return statement); a throw inside handleError completes the
block with that throw. -/
def catchClause (h : Handler) (e : JSVal) : List Ev × Comp :=
  match callHE h.handleError e with
  | (t, .ok _) => (t, .normal)
  | (t, .error e2) => (t, .thr e2)

/-- The finally block `{ handler.spinnerOff(); }`. -/
def finallyClause (h : Handler) : List Ev × Comp :=
  match callOn h.spinnerOff .off with
  | (t, .ok _) => (t, .normal)
  | (t, .error e) => (t, .thr e)

/-- The whole try/catch/finally statement, after ECMAScript: the catch block
runs exactly when the try block threw; the finally block always runs, and an
abrupt completion of the finally block replaces the earlier completion. -/
def tryStmt (h : Handler) (op : Op) : List Ev × Comp :=
  let b := tryClause h op
  let c : List Ev × Comp :=
    match b.2 with
    | .thr e => catchClause h e
    | other => ([], other)
  let f := finallyClause h
  (b.1 ++ c.1 ++ f.1,
    match f.2 with
    | .thr e => .thr e
    | _ => c.2)

/-- The contract check `!handler.spinnerOn || !handler.spinnerOff || !handler.handleError`:
true exactly when at least one of the three properties is falsy. -/
def checkFails (h : Handler) : Bool :=
  !h.spinnerOn.truthy || !h.spinnerOff.truthy || !h.handleError.truthy

/-- The body of the replaced method: the contract check throws the
contract-violation error before anything else when it fails; otherwise the
try/catch/finally statement runs, and a `return v` completion returns `v`
while falling off the end of the body returns undefined. -/
def bodyRun (h : Handler) (op : Op) : List Ev × Except JSVal JSVal :=
  if checkFails h then
    ([], .error contractError)
  else
    let r := tryStmt h op
    (r.1,
      match r.2 with
      | .ret v => .ok v
      | .normal => .ok .undef
      | .thr e => .error e)

/-- One invocation of the callable installed by the WithSpinner decorator
(`descriptor.value`), with `this = h` and the original method behaving as
`op`.  Because the replacement is an `async function`, the body never throws
synchronously to the caller: a completed body resolves the returned promise
and a thrown error rejects it. -/
def WithSpinner (h : Handler) (op : Op) : List Ev × CallResult :=
  let r := bodyRun h op
  (r.1,
    match r.2 with
    | .ok v => .promise (.resolved v)
    | .error e => .promise (.rejected e))

/-- A handler that genuinely implements the SpinnerHandler interface: all
three properties are functions, with `impl` the behaviour of handleError. -/
def validHandler (impl : JSVal → HERes) : Handler :=
  { spinnerOn := .func, spinnerOff := .func, handleError := .func impl }

/-- The calls the handler itself observes: the trace without the original
method invocation marker. -/
def handlerEvents (t : List Ev) : List Ev :=
  t.filter (fun e => e != Ev.opCall)

/-- Trace of one invocation on a genuinely implemented handler: spinnerOn,
then the original method, then (on failure) handleError, then spinnerOff. -/
theorem validHandler_trace (impl : JSVal → HERes) (op : Op) :
    (WithSpinner (validHandler impl) op).1 =
      match op with
      | .retResolve _ => [Ev.on, Ev.opCall, Ev.off]
      | .retReject e => [Ev.on, Ev.opCall, Ev.handleError e, Ev.off]
      | .throwSync e => [Ev.on, Ev.opCall, Ev.handleError e, Ev.off] := by
  cases op with
  | retResolve v => rfl
  | retReject e =>
    cases h : impl e <;>
      simp [WithSpinner, bodyRun, tryStmt, tryClause, catchClause, finallyClause,
        callOn, callHE, opRun, checkFails, validHandler, OnSlot.truthy, HESlot.truthy, h]
  | throwSync e =>
    cases h : impl e <;>
      simp [WithSpinner, bodyRun, tryStmt, tryClause, catchClause, finallyClause,
        callOn, callHE, opRun, checkFails, validHandler, OnSlot.truthy, HESlot.truthy, h]

/-- Result of one invocation on a genuinely implemented handler: success
resolves with the operation value; failure resolves with undefined when
handleError returns (its return value is discarded by the catch block), and
rejects with the error handleError threw when it throws. -/
theorem validHandler_result (impl : JSVal → HERes) (op : Op) :
    (WithSpinner (validHandler impl) op).2 =
      match op with
      | .retResolve v => .promise (.resolved v)
      | .retReject e =>
        match impl e with
        | .ret _ => .promise (.resolved .undef)
        | .thr e2 => .promise (.rejected e2)
      | .throwSync e =>
        match impl e with
        | .ret _ => .promise (.resolved .undef)
        | .thr e2 => .promise (.rejected e2) := by
  cases op with
  | retResolve v => rfl
  | retReject e =>
    cases h : impl e <;>
      simp [WithSpinner, bodyRun, tryStmt, tryClause, catchClause, finallyClause,
        callOn, callHE, opRun, checkFails, validHandler, OnSlot.truthy, HESlot.truthy, h]
  | throwSync e =>
    cases h : impl e <;>
      simp [WithSpinner, bodyRun, tryStmt, tryClause, catchClause, finallyClause,
        callOn, callHE, opRun, checkFails, validHandler, OnSlot.truthy, HESlot.truthy, h]

/-- The observable state of SpinnerComponent: its protected loading signal,
declared as `loading = signal(false)`. -/
structure SpinnerComponent where
  loading : Bool
deriving DecidableEq, Repr

/-- The loading signal at construction: `signal(false)`. -/
def SpinnerComponent.init : SpinnerComponent := ⟨false⟩

/-- `spinnerOn() { this.loading.set(true); }` of SpinnerComponent. -/
def SpinnerComponent.spinnerOn (_ : SpinnerComponent) : SpinnerComponent := ⟨true⟩

/-- `spinnerOff() { this.loading.set(false); }` of SpinnerComponent. -/
def SpinnerComponent.spinnerOff (_ : SpinnerComponent) : SpinnerComponent := ⟨false⟩

/-- Effect of one observed event on the SpinnerComponent loading signal.
handleError is abstract in SpinnerComponent and the base class gives it no
access path that mutates loading, so it leaves the state unchanged here;
the original method does not touch the signal either. -/
def SpinnerComponent.applyEv (s : SpinnerComponent) : Ev → SpinnerComponent
  | .on => s.spinnerOn
  | .off => s.spinnerOff
  | _ => s

/-- Claim C1, as stated, is false on the code: with an operation whose
promise rejects with the boom Error and a handleError implementation that
returns the string handled, the wrapped call resolves to undefined, because
the catch block `{ handler.handleError(error); }` discards the return value
of handleError; it does not resolve to the string handled. -/
theorem C1_counterexample :
    (WithSpinner (validHandler (fun _ => .ret (.vstr "handled")))
        (.retReject (.error "Error" "boom"))).2
      = .promise (.resolved .undef)
    ∧ CallResult.promise (.resolved .undef)
        ≠ .promise (.resolved (.vstr "handled")) :=
  ⟨rfl, by decide⟩

/-- Claim C1 amended: when the wrapped operation fails (rejects or throws
synchronously) and handleError returns normally, the wrapped call resolves
to undefined — the return value of handleError is discarded, not returned. -/
theorem C1_amended (impl : JSVal → HERes) (e v : JSVal) (op : Op)
    (hop : op = .retReject e ∨ op = .throwSync e) (hret : impl e = .ret v) :
    (WithSpinner (validHandler impl) op).2 = .promise (.resolved .undef) := by
  rcases hop with h | h <;> subst h <;> rw [validHandler_result] <;> simp [hret]

/-- Witness for the amended claim C1 at the concrete boom scenario. -/
theorem C1_amended_witness :
    (WithSpinner (validHandler (fun _ => .ret (.vstr "handled")))
        (.retReject (.error "Error" "boom"))).2 = .promise (.resolved .undef) :=
  C1_amended (fun _ => .ret (.vstr "handled")) (.error "Error" "boom") (.vstr "handled")
    (.retReject (.error "Error" "boom")) (Or.inl rfl) rfl

/-- Claim C2, as stated, is false on the code: passing the capability check
is weaker than implementing the three operations.  A handler whose
spinnerOff is the truthy non-callable value 1 (spinnerOn and handleError
being genuine functions) passes the check, yet when the operation resolves
the trace is only spinnerOn followed by the operation invocation: calling
the non-callable spinnerOff in the finally block throws a TypeError instead
of recording a spinnerOff call, so spinnerOff is called zero times, not
exactly once. -/
theorem C2_counterexample :
    checkFails ⟨.func, .val (.vnum 1), .func (fun _ => HERes.ret .undef)⟩ = false ∧
    (WithSpinner ⟨.func, .val (.vnum 1), .func (fun _ => HERes.ret .undef)⟩
        (.retResolve (.vnum 5))).1 = [Ev.on, Ev.opCall] ∧
    (WithSpinner ⟨.func, .val (.vnum 1), .func (fun _ => HERes.ret .undef)⟩
        (.retResolve (.vnum 5))).1.count Ev.off = 0 :=
  ⟨rfl, rfl, rfl⟩

/-- Claim C2 amended: on a handler whose three properties spinnerOn,
spinnerOff and handleError are genuine functions (such a handler in
particular passes the capability check), every invocation calls spinnerOn
exactly once and spinnerOff exactly once, with spinnerOff after spinnerOn,
in all three outcome cases of the operation (resolve, reject, synchronous
throw) and for every handleError behaviour. -/
theorem C2_amended (impl : JSVal → HERes) (op : Op) :
    checkFails (validHandler impl) = false ∧
    (WithSpinner (validHandler impl) op).1.count Ev.on = 1 ∧
    (WithSpinner (validHandler impl) op).1.count Ev.off = 1 ∧
    ∃ pre post,
      (WithSpinner (validHandler impl) op).1 = pre ++ Ev.off :: post ∧ Ev.on ∈ pre := by
  refine ⟨rfl, ?_⟩
  rw [validHandler_trace]
  cases op with
  | retResolve v => exact ⟨rfl, rfl, [Ev.on, Ev.opCall], [], rfl, by simp⟩
  | retReject e => exact ⟨rfl, rfl, [Ev.on, Ev.opCall, Ev.handleError e], [], rfl, by simp⟩
  | throwSync e => exact ⟨rfl, rfl, [Ev.on, Ev.opCall, Ev.handleError e], [], rfl, by simp⟩

/-- Claim C3: on a handler missing at least one of the three required
operations (a missing property reads as undefined), the wrapped call rejects
with the contract-violation error and the event trace is empty: neither
spinnerOn nor the wrapped operation is ever invoked. -/
theorem C3 (h : Handler) (op : Op)
    (hmiss : h.spinnerOn = .val .undef ∨ h.spinnerOff = .val .undef
      ∨ h.handleError = .val .undef) :
    WithSpinner h op = ([], .promise (.rejected contractError)) := by
  have hc : checkFails h = true := by
    rcases hmiss with hm | hm | hm <;>
      simp [checkFails, hm, OnSlot.truthy, HESlot.truthy, JSVal.truthy]
  simp [WithSpinner, bodyRun, hc]

/-- Witness for claim C3: a handler lacking handleError. -/
theorem C3_witness :
    WithSpinner ⟨.func, .func, .val .undef⟩ (.retResolve (.vnum 42))
      = ([], .promise (.rejected contractError)) :=
  C3 ⟨.func, .func, .val .undef⟩ (.retResolve (.vnum 42)) (Or.inr (Or.inr rfl))

/-- Claim C4: on a valid handler, when the operation returns a promise that
rejects with E and handleError returns normally, the trace shows handleError
invoked exactly once with exactly E and spinnerOff still invoked, and the
wrapped call resolves (with undefined), so the guard never re-throws E. -/
theorem C4 (impl : JSVal → HERes) (e v : JSVal) (hret : impl e = .ret v) :
    (WithSpinner (validHandler impl) (.retReject e)).1
      = [Ev.on, Ev.opCall, Ev.handleError e, Ev.off] ∧
    (WithSpinner (validHandler impl) (.retReject e)).2 = .promise (.resolved .undef) := by
  refine ⟨by rw [validHandler_trace], ?_⟩
  rw [validHandler_result]
  simp [hret]

/-- Witness for claim C4 at the concrete boom rejection. -/
theorem C4_witness :
    (WithSpinner (validHandler (fun _ => HERes.ret .undef))
        (.retReject (.error "Error" "boom"))).1
      = [Ev.on, Ev.opCall, Ev.handleError (.error "Error" "boom"), Ev.off] ∧
    (WithSpinner (validHandler (fun _ => HERes.ret .undef))
        (.retReject (.error "Error" "boom"))).2 = .promise (.resolved .undef) :=
  C4 (fun _ => HERes.ret .undef) (.error "Error" "boom") .undef rfl

/-- Claim C5: on a valid handler, when the operation throws E synchronously,
the trace is spinnerOn, then the operation invocation (so spinnerOn was
already called when the throw is observed), then handleError with E exactly
once, then spinnerOff exactly once — for every handleError behaviour. -/
theorem C5 (impl : JSVal → HERes) (e : JSVal) :
    (WithSpinner (validHandler impl) (.throwSync e)).1
      = [Ev.on, Ev.opCall, Ev.handleError e, Ev.off] := by
  rw [validHandler_trace]

/-- Claim C6: on a valid handler, when the operation resolves to V the
wrapped call resolves to the same V, handleError is never invoked, and the
handler observes exactly the call order spinnerOn then spinnerOff; in
particular the wrapped call resolves to 42 when the operation resolves 42. -/
theorem C6 (impl : JSVal → HERes) (v : JSVal) :
    (WithSpinner (validHandler impl) (.retResolve v)).2 = .promise (.resolved v) ∧
    handlerEvents (WithSpinner (validHandler impl) (.retResolve v)).1 = [Ev.on, Ev.off] ∧
    (∀ e, Ev.handleError e ∉ (WithSpinner (validHandler impl) (.retResolve v)).1) ∧
    (WithSpinner (validHandler impl) (.retResolve (.vnum 42))).2
      = .promise (.resolved (.vnum 42)) := by
  refine ⟨by rw [validHandler_result], by rw [validHandler_trace]; rfl, ?_,
    by rw [validHandler_result]⟩
  intro e
  rw [validHandler_trace]
  simp

/-- Claim C7: on a valid handler, when the operation fails (rejects or
throws synchronously) with E and handleError itself throws E2, spinnerOff is
still invoked exactly once (it is the last event of the trace, so it occurs
before control returns to the caller), and the wrapped call rejects with E2:
the error thrown inside handleError is not separately caught by the guard. -/
theorem C7 (impl : JSVal → HERes) (e e2 : JSVal) (op : Op)
    (hop : op = .retReject e ∨ op = .throwSync e) (hthr : impl e = .thr e2) :
    (WithSpinner (validHandler impl) op).1
      = [Ev.on, Ev.opCall, Ev.handleError e, Ev.off] ∧
    (WithSpinner (validHandler impl) op).2 = .promise (.rejected e2) := by
  rcases hop with h | h <;> subst h <;>
    exact ⟨by rw [validHandler_trace], by rw [validHandler_result]; simp [hthr]⟩

/-- Witness for claim C7: handleError rethrows the boom error. -/
theorem C7_witness :
    (WithSpinner (validHandler (fun e => HERes.thr e))
        (.retReject (.error "Error" "boom"))).1
      = [Ev.on, Ev.opCall, Ev.handleError (.error "Error" "boom"), Ev.off] ∧
    (WithSpinner (validHandler (fun e => HERes.thr e))
        (.retReject (.error "Error" "boom"))).2
      = .promise (.rejected (.error "Error" "boom")) :=
  C7 (fun e => HERes.thr e) (.error "Error" "boom") (.error "Error" "boom")
    (.retReject (.error "Error" "boom")) (Or.inl rfl) rfl

/-- Claim C8: the SpinnerComponent loading signal starts false, spinnerOn
sets it true and spinnerOff sets it false; and under the decorator with a
valid handler the trace begins with spinnerOn immediately followed by the
operation invocation (so the flag is busy immediately before the operation
starts), and replaying the whole trace from the initial state leaves loading
false (the flag returns to idle when the operation settles, in every outcome
and for every handleError behaviour). -/
theorem C8 (impl : JSVal → HERes) (op : Op) :
    SpinnerComponent.init.loading = false ∧
    (∀ s : SpinnerComponent, s.spinnerOn.loading = true) ∧
    (∀ s : SpinnerComponent, s.spinnerOff.loading = false) ∧
    (∃ rest, (WithSpinner (validHandler impl) op).1 = Ev.on :: Ev.opCall :: rest) ∧
    (List.foldl SpinnerComponent.applyEv SpinnerComponent.init
        (WithSpinner (validHandler impl) op).1).loading = false := by
  refine ⟨rfl, fun _ => rfl, fun _ => rfl, ?_, ?_⟩ <;> rw [validHandler_trace] <;>
    cases op with
    | retResolve v => first | exact ⟨[Ev.off], rfl⟩ | rfl
    | retReject e => first | exact ⟨[Ev.handleError e, Ev.off], rfl⟩ | rfl
    | throwSync e => first | exact ⟨[Ev.handleError e, Ev.off], rfl⟩ | rfl

/-- Claim C9: the replaced method is an async function, so its invocation
never throws synchronously: for every handler and every operation behaviour
the call result is a settled promise; and when the capability check fails
the contract-violation error surfaces as a rejection of that promise. -/
theorem C9 (h : Handler) (op : Op) :
    (∃ o, (WithSpinner h op).2 = .promise o) ∧
    (checkFails h = true → WithSpinner h op = ([], .promise (.rejected contractError))) := by
  constructor
  · cases hb : (bodyRun h op).2 with
    | ok v => exact ⟨.resolved v, by simp [WithSpinner, hb]⟩
    | error e => exact ⟨.rejected e, by simp [WithSpinner, hb]⟩
  · intro hc
    simp [WithSpinner, bodyRun, hc]

/-- Witness for claim C9: a handler with a falsy spinnerOn rejects with the
contract-violation error rather than throwing synchronously. -/
theorem C9_witness :
    WithSpinner ⟨.val .undef, .func, .func (fun e => HERes.thr e)⟩ (.retResolve (.vnum 1))
      = ([], .promise (.rejected contractError)) :=
  (C9 ⟨.val .undef, .func, .func (fun e => HERes.thr e)⟩ (.retResolve (.vnum 1))).2 rfl

/-- Claim C10, as stated, is false on the code: a handler whose spinnerOn is
the truthy non-callable value 1 (spinnerOff and handleError being genuine
functions) passes the capability check, yet the invocation does not fail:
the TypeError thrown when the guard attempts to call the non-callable
spinnerOn is caught by the catch block and routed to handleError, and the
wrapped call resolves (to undefined). -/
theorem C10_counterexample :
    checkFails ⟨.val (.vnum 1), .func, .func (fun _ => .ret .undef)⟩ = false ∧
    WithSpinner ⟨.val (.vnum 1), .func, .func (fun _ => .ret .undef)⟩ (.retResolve (.vnum 42))
      = ([Ev.handleError typeError, Ev.off], .promise (.resolved .undef)) :=
  ⟨rfl, rfl⟩

/-- Claim C10 amended: the capability check fails exactly when at least one
of the three properties is falsy, and a failing check rejects the call with
the contract-violation error before any event; a handler with a truthy
non-callable property passes the check, and the TypeError raised when the
guard attempts to call it follows the normal control flow of the guard: a
non-callable spinnerOn has its TypeError caught and routed to handleError
with the call resolving when handleError returns normally (the operation
never runs), while a non-callable spinnerOff makes the wrapped call reject
with the TypeError from the finally block. -/
theorem C10_amended :
    (∀ h : Handler, checkFails h = true ↔
      (h.spinnerOn.truthy = false ∨ h.spinnerOff.truthy = false
        ∨ h.handleError.truthy = false)) ∧
    (∀ (h : Handler) (op : Op), checkFails h = true →
      WithSpinner h op = ([], .promise (.rejected contractError))) ∧
    (∀ (v : JSVal) (impl : JSVal → HERes) (op : Op) (w : JSVal),
      v.truthy = true → impl typeError = .ret w →
      WithSpinner ⟨.val v, .func, .func impl⟩ op
        = ([Ev.handleError typeError, Ev.off], .promise (.resolved .undef))) ∧
    (∀ (v w : JSVal) (impl : JSVal → HERes), v.truthy = true →
      WithSpinner ⟨.func, .val v, .func impl⟩ (.retResolve w)
        = ([Ev.on, Ev.opCall], .promise (.rejected typeError))) := by
  refine ⟨?_, ?_, ?_, ?_⟩
  · intro h
    simp [checkFails, Bool.or_eq_true, Bool.not_eq_true', or_assoc]
  · intro h op hc
    simp [WithSpinner, bodyRun, hc]
  · intro v impl op w hv himpl
    have hc : checkFails ⟨.val v, .func, .func impl⟩ = false := by
      simp [checkFails, OnSlot.truthy, HESlot.truthy, hv]
    simp [WithSpinner, bodyRun, hc, tryStmt, tryClause, catchClause, finallyClause,
      callOn, callHE, himpl]
  · intro v w impl hv
    have hc : checkFails ⟨.func, .val v, .func impl⟩ = false := by
      simp [checkFails, OnSlot.truthy, HESlot.truthy, hv]
    simp [WithSpinner, bodyRun, hc, tryStmt, tryClause, catchClause, finallyClause,
      callOn, callHE, opRun]

/-- Witness for the amended claim C10: a truthy non-callable spinnerOn with
a well-behaved handleError leaves the wrapped call resolving. -/
theorem C10_amended_witness :
    WithSpinner ⟨.val (.vbool true), .func, .func (fun _ => HERes.ret .undef)⟩
        (.retResolve (.vnum 7))
      = ([Ev.handleError typeError, Ev.off], .promise (.resolved .undef)) :=
  C10_amended.2.2.1 (.vbool true) (fun _ => HERes.ret .undef) (.retResolve (.vnum 7))
    .undef rfl rfl
